import Mathlib

/-!
Verification of the ithotlist-api backend (job postings, candidates, hotlists).

The definitions below are a shallow embedding of the JavaScript source:
  * `src/routes/jobs.js`   — the GET /jobs filter builder, GET /jobs/:id,
    POST /jobs, POST /jobs/:id/apply, the candidate routes
    (GET /candidates/:id, GET /candidates/search, POST /candidate/with-resume),
    the hotlist routes, and the multer upload configuration;
  * `src/models/Job.js` and the candidate/hotlist schemas — field defaults,
    required fields, and the pre-save updatedAt hooks.

Mongo `$regex` with the `i` option applied to the literal strings this API
builds is embedded as case-insensitive substring containment; `$in` with a
list of such patterns over an array field matches when some stored element
matches some pattern.  The document store is embedded as a partial map from
ids to documents; `findByIdAndUpdate` with `$inc` is one atomic step on it.
-/

namespace IthotlistApi

/-! ## JavaScript string primitives

Embeddings of `String.prototype.toLowerCase`, `trim` and `split(',')` as
structural recursion over character lists, so every definition below
evaluates by kernel reduction. -/

/-- ASCII lowercasing of one character (the fragment of `toLowerCase` the
API's data exercises). -/
def lcChar (c : Char) : Char :=
  if 65 ≤ c.toNat && c.toNat ≤ 90 then Char.ofNat (c.toNat + 32) else c

/-- `toLowerCase`. -/
def jsLower (s : String) : String := String.mk (s.data.map lcChar)

/-- JavaScript whitespace as `trim` strips it (space, tab, newline,
carriage return cover the API's inputs). -/
def isWS (c : Char) : Bool := c == ' ' || c == '\t' || c == '\n' || c == '\r'

/-- Strip leading and trailing whitespace from a character list. -/
def trimChars (l : List Char) : List Char :=
  ((l.dropWhile isWS).reverse.dropWhile isWS).reverse

/-- `trim`. -/
def jsTrim (s : String) : String := String.mk (trimChars s.data)

/-- `split(',')` over a character list: note `''.split(',')` is `['']`. -/
def splitComma : List Char → List (List Char)
  | [] => [[]]
  | c :: t =>
    if c == ',' then [] :: splitComma t
    else
      match splitComma t with
      | [] => [[c]]
      | h :: r => (c :: h) :: r

/-- `split(',')`. -/
def jsSplitComma (s : String) : List String := (splitComma s.data).map String.mk

/-! ## Case-insensitive substring matching (embedding of `$regex` + option i) -/

/-- Boolean test that the first character list occurs at the head of the second. -/
def headMatch : List Char → List Char → Bool
  | [], _ => true
  | _ :: _, [] => false
  | a :: as, b :: bs => a == b && headMatch as bs

/-- Boolean test that the first character list occurs somewhere inside the second. -/
def subMatch (p : List Char) : List Char → Bool
  | [] => headMatch p []
  | c :: t => headMatch p (c :: t) || subMatch p t

/-- Case-insensitive substring containment: embedding of matching a stored
string `s` against the pattern `new RegExp(pat, 'i')` / `{ $regex: pat, $options: 'i' }`
for the literal pattern strings this API constructs. -/
def containsCI (pat s : String) : Bool :=
  subMatch (jsLower pat).data (jsLower s).data

/-! ## Tokenization of comma-separated skill strings -/

/-- `src/routes/jobs.js` line 128, filter builder for the `requiredSkills`
query parameter: `requiredSkills.split(',').map(skill => skill.trim())`.
Note: no empty-token filtering. -/
def filterTokens (s : String) : List String :=
  (jsSplitComma s).map jsTrim

/-- `src/routes/jobs.js` lines 613-614, POST /candidate/with-resume:
`skills.split(',').map(skill => skill.trim()).filter(Boolean)` —
JavaScript `Boolean` is false exactly on the empty string here. -/
def candidateSkillTokens (s : String) : List String :=
  ((jsSplitComma s).map jsTrim).filter (fun t => !(t == ""))

/-! ## Job documents (src/models/Job.js) -/

/-- Nested company subdocument of a Job (`companySchema`). -/
structure Company where
  name : String
  website : Option String := none
  logo : Option String := none
  deriving Repr, DecidableEq

/-- A stored Job document, with the fields the routes read or write
(`jobSchema` in src/models/Job.js).  Dates are embedded as naturals
(milliseconds since the epoch). -/
structure Job where
  title : String
  company : Company
  description : String
  requirements : List String := []
  responsibilities : List String := []
  jobType : String
  experienceLevel : String
  location : String
  remote : Bool := false
  primaryTechnology : String
  requiredSkills : List String := []
  benefits : List String := []
  status : String := "draft"
  applicationDeadline : Nat
  postedDate : Nat
  updatedAt : Nat
  views : Nat := 0
  applications : Nat := 0
  deriving Repr, DecidableEq

/-! ## The GET /jobs filter builder (src/routes/jobs.js lines 87-132) -/

/-- The optional query parameters of GET /jobs that feed the filter builder.
`none` is an absent parameter (JavaScript `undefined`); `some ""` is a
parameter supplied as the empty string. -/
structure JobsParams where
  status : Option String := none
  jobType : Option String := none
  experienceLevel : Option String := none
  primaryTechnology : Option String := none
  remote : Option String := none
  requiredSkills : Option String := none
  location : Option String := none
  search : Option String := none
  deriving Repr, DecidableEq

/-- JavaScript truthiness of an optional string parameter: `if (x) ...`
keeps the value exactly when it is present and non-empty. -/
def jsTruthy : Option String → Option String
  | none => none
  | some s => if s == "" then none else some s

/-- The predicate object built by GET /jobs (`const query = {}` and the
conditional assignments that follow).  Each `none` field contributes no
constraint. -/
structure JobQuery where
  status : Option String := none
  jobType : Option String := none
  experienceLevel : Option String := none
  primaryTechnology : Option String := none
  remote : Option Bool := none
  location : Option String := none
  searchOr : Option String := none
  requiredSkillsIn : Option (List String) := none
  deriving Repr, DecidableEq

/-- Embedding of the query construction in GET /jobs:
`if (status) query.status = status;` ... `if (remote !== undefined)
query.remote = remote === 'true';` ... `if (requiredSkills) { const
skillsArray = requiredSkills.split(',').map(skill => skill.trim()); ... }`. -/
def buildJobsQuery (p : JobsParams) : JobQuery where
  status := jsTruthy p.status
  jobType := jsTruthy p.jobType
  experienceLevel := jsTruthy p.experienceLevel
  primaryTechnology := jsTruthy p.primaryTechnology
  remote := p.remote.map (fun v => v == "true")
  location := jsTruthy p.location
  searchOr := jsTruthy p.search
  requiredSkillsIn := (jsTruthy p.requiredSkills).map filterTokens

/-- An optional constraint holds vacuously when absent. -/
def optSat (o : Option α) (f : α → Bool) : Bool :=
  match o with
  | none => true
  | some a => f a

/-- Mongo evaluation of a `JobQuery` against a stored Job document:
top-level fields are conjoined; the `$or` clause from `search` is a
disjunction over title, description and company.name; `requiredSkills: {$in:
[patterns]}` matches when some stored skill matches some pattern. -/
def matchesQuery (q : JobQuery) (j : Job) : Bool :=
  optSat q.status (fun s => j.status == s) &&
  optSat q.jobType (fun s => j.jobType == s) &&
  optSat q.experienceLevel (fun s => j.experienceLevel == s) &&
  optSat q.primaryTechnology (fun s => j.primaryTechnology == s) &&
  optSat q.remote (fun b => j.remote == b) &&
  optSat q.location (fun pat => containsCI pat j.location) &&
  optSat q.searchOr (fun s =>
    containsCI s j.title || containsCI s j.description || containsCI s j.company.name) &&
  optSat q.requiredSkillsIn (fun pats =>
    j.requiredSkills.any (fun sk => pats.any (fun pat => containsCI pat sk)))

/-! ## Atomic counter increments (src/routes/jobs.js lines 201-210 and 309-315)

`findByIdAndUpdate(id, { $inc: { views: 1 } })` (resp. `applications`) is a
single store-level instruction: the store applies it to the matching
document in one indivisible step.  A concurrent execution of such requests
is therefore any serialization of their atomic steps. -/

/-- The document store keyed by id, embedded as a partial map. -/
def JobStore : Type := Nat → Option Job

/-- The two update documents the routes issue against a job:
`{ $inc: { views: 1 } }` (GET /jobs/:id) and `{ $inc: { applications: 1 } }`
(POST /jobs/:id/apply). -/
inductive CounterOp where
  | view
  | app
  deriving Repr, DecidableEq

/-- Effect of one `$inc` update document on a single job document.  Note it
touches only the counter: no other field, in particular not `updatedAt`. -/
def applyInc (o : CounterOp) (j : Job) : Job :=
  match o with
  | .view => { j with views := j.views + 1 }
  | .app => { j with applications := j.applications + 1 }

/-- One atomic `findByIdAndUpdate .. $inc` step against the store. -/
def incStep (id : Nat) (o : CounterOp) (st : JobStore) : JobStore :=
  fun k => if k = id then (st k).map (applyInc o) else st k

/-- A serialized concurrent execution: the atomic steps of the requests,
applied in the order the store serializes them. -/
def runOps (id : Nat) (ops : List CounterOp) (st : JobStore) : JobStore :=
  ops.foldl (fun s o => incStep id o s) st

/-! ## Id-based lookups and their error mapping (src/routes/jobs.js)

`findById` / `findByIdAndUpdate` on a malformed id throws a `CastError`.
A well-formed ObjectId literal is 24 hexadecimal characters. -/

/-- Mongo ObjectId well-formedness as mongoose casting accepts it from a
24-character route parameter. -/
def isValidObjectId (s : String) : Bool :=
  s.length == 24 && s.data.all (fun c => c.isDigit || (("abcdefABCDEF" : String).data.contains c))

/-- Outcome of a `findById`-style lookup. -/
inductive LookupOutcome (α : Type) where
  | castErr
  | missing
  | found (a : α)
  deriving Repr, DecidableEq

/-- `findById` over a store keyed by id strings: a malformed id throws
`CastError`; a well-formed id either finds the document or not. -/
def findById (st : String → Option α) (id : String) : LookupOutcome α :=
  if isValidObjectId id then
    match st id with
    | some a => .found a
    | none => .missing
  else .castErr

/-- HTTP status of GET /jobs/:id (lines 201-240): `CastError` is mapped to
400 ("Invalid job ID format"), a null result to 404, success to 200. -/
def getJobByIdStatus (st : String → Option Job) (id : String) : Nat :=
  match findById st id with
  | .castErr => 400
  | .missing => 404
  | .found _ => 200

/-- HTTP status of GET /candidates/:id (lines 480-490): the catch block
returns 500 for every thrown error, `CastError` included; null gives 404. -/
def getCandidateByIdStatus (st : String → Option α) (id : String) : Nat :=
  match findById st id with
  | .castErr => 500
  | .missing => 404
  | .found _ => 200

/-- HTTP status of GET /hotlist/:id (lines 795-805): same shape as the
candidate route — the catch block returns 500 for every thrown error. -/
def getHotlistByIdStatus (st : String → Option α) (id : String) : Nat :=
  match findById st id with
  | .castErr => 500
  | .missing => 404
  | .found _ => 200

/-! ## updatedAt maintenance (src/models/Job.js lines 114-118 and the
candidate schema pre-save hook) -/

/-- The `jobSchema.pre('save')` hook: sets `updatedAt` to the current time
just before the document is persisted. -/
def jobPreSave (now : Nat) (j : Job) : Job :=
  { j with updatedAt := now }

/-! ## Candidate documents (candidate schema, src/unnamed/part_000) -/

/-- The nested `resumeFile` subdocument: filename, storage path, MIME type,
all defaulting to null. -/
structure ResumeInfo where
  filename : Option String := none
  path : Option String := none
  mimetype : Option String := none
  deriving Repr, DecidableEq

/-- A stored Candidate document with the fields the routes read or write. -/
structure Candidate where
  name : String
  email : String
  yearsOfExp : Nat := 0
  technology : String := "Not Specified"
  skills : List String := []
  experience : Nat := 0
  avatar : String := "https://example.com/default-avatar.jpg"
  resumeFile : ResumeInfo := {}
  status : String := "pending"
  createdAt : Nat
  updatedAt : Nat
  deriving Repr, DecidableEq

/-- The `candidateSchema.pre('save')` hook: refreshes `updatedAt` just
before the document is persisted. -/
def candidatePreSave (now : Nat) (c : Candidate) : Candidate :=
  { c with updatedAt := now }

/-! ## The multer upload pipeline (src upload configuration, lines 855-899)

`upload.single('resumeFile')` runs before the handler: `fileFilter` decides
acceptance from the field name and MIME type, `limits.fileSize` bounds the
byte count, and an accepted file is written to the uploads directory under
`Date.now() + '-' + file.originalname`.  A rejected file is never left in
the uploads directory (multer removes any partial write), and the request
fails with a client error per the API's error taxonomy (the spec's 400
mapping for invalid file type/size). -/

/-- An incoming multipart file part. -/
structure IncomingFile where
  fieldname : String
  originalname : String
  mimetype : String
  size : Nat
  deriving Repr, DecidableEq

/-- The three MIME types `fileFilter` accepts for the resume field. -/
def allowedMimes : List String :=
  ["application/pdf", "application/msword",
   "application/vnd.openxmlformats-officedocument.wordprocessingml.document"]

/-- `fileFilter`: for the `resumeFile` field only the three document MIME
types pass; any other field passes unchecked. -/
def fileFilterAccepts (fieldname mimetype : String) : Bool :=
  if fieldname == "resumeFile" then allowedMimes.contains mimetype else true

/-- `limits: { fileSize: 5 * 1024 * 1024 }` — the 5 MiB byte bound. -/
def fileSizeLimit : Nat := 5 * 1024 * 1024

/-- The middleware run on one uploaded file: returns the error status of a
rejection (`some 400`) or `none` on acceptance, together with the uploads
directory contents afterwards. -/
def multerSingle (now : Nat) (files : List String) (f : IncomingFile) :
    Option Nat × List String :=
  if fileFilterAccepts f.fieldname f.mimetype then
    if f.size ≤ fileSizeLimit then
      (none, files ++ [toString now ++ "-" ++ f.originalname])
    else (some 400, files)
  else (some 400, files)

/-! ## POST /candidate/with-resume (src/routes/jobs.js lines 599-644) -/

/-- The multipart body fields the handler destructures (each a string field
that may be absent). -/
structure WithResumeBody where
  name : Option String := none
  email : Option String := none
  yearsOfExp : Option String := none
  technology : Option String := none
  skills : Option String := none
  experience : Option String := none
  avatar : Option String := none
  status : Option String := none
  deriving Repr, DecidableEq

/-- A file multer has already written when the handler runs: its stored
path in the uploads directory, plus name and MIME type. -/
structure StoredFile where
  filename : String
  path : String
  mimetype : String
  deriving Repr, DecidableEq

/-- Mongoose validation of `candidate.save()` as the schema specifies it:
`name` and `email` are required (undefined or empty fails), and `email` is
unique across stored candidates.  `storeOk` stands for the document store
accepting the write at all (a store failure is one more way `save` can
reject). -/
def candidateSaveOk (storeOk : Bool) (emails : List String)
    (name email : Option String) : Bool :=
  storeOk &&
  (match name with | some n => !(n == "") | none => false) &&
  (match email with | some e => !(e == "") && !(emails.contains e) | none => false)

/-- State the with-resume request touches: the uploads directory and the
candidate collection. -/
structure ApiState where
  files : List String
  candidates : List Candidate
  deriving Repr, DecidableEq

/-- Embedding of the POST /candidate/with-resume handler, entered after
`upload.single('resumeFile')` has written the file (when one was sent).
On `save()` success it answers 201; in the catch block it first unlinks
`req.file.path` when a file was uploaded, then answers 400. -/
def withResumeHandler (storeOk : Bool) (now : Nat) (st : ApiState)
    (file : Option StoredFile) (body : WithResumeBody) : Nat × ApiState :=
  let files1 := match file with
    | some f => st.files ++ [f.path]
    | none => st.files
  if candidateSaveOk storeOk (st.candidates.map Candidate.email)
      body.name body.email then
    let cand : Candidate :=
      { name := (body.name.getD "")
        email := (body.email.getD "")
        yearsOfExp := (body.yearsOfExp.bind String.toNat?).getD 0
        technology := body.technology.getD "Not Specified"
        skills := match body.skills with
          | some s => candidateSkillTokens s
          | none => []
        experience := (body.experience.bind String.toNat?).getD 0
        avatar := body.avatar.getD "https://example.com/default-avatar.jpg"
        resumeFile := match file with
          | some f => { filename := some f.filename, path := some f.path,
                        mimetype := some f.mimetype }
          | none => {}
        status := body.status.getD "pending"
        createdAt := now
        updatedAt := now }
    (201, { files := files1, candidates := st.candidates ++ [cand] })
  else
    match file with
    | some f => (400, { files := files1.erase f.path, candidates := st.candidates })
    | none => (400, { files := files1, candidates := st.candidates })

/-! ## POST /jobs (src/routes/jobs.js lines 263-306) -/

/-- A loosely-typed JSON body field that the handler feeds to
`Array.isArray(x) ? x : x.split(',')...`: it can be absent (`undefined`),
a string, or an array of strings. -/
inductive JSVal where
  | undef
  | str (s : String)
  | arr (l : List String)
  deriving Repr, DecidableEq

/-- `Array.isArray(x) ? x : x.split(',').map(t => t.trim())`: an array is
kept, a string is split and trimmed, and `undefined.split` throws a
`TypeError` (caught by the handler's catch block). -/
def coerceToArray : JSVal → Except String (List String)
  | .arr l => .ok l
  | .str s => .ok ((jsSplitComma s).map jsTrim)
  | .undef => .error "Cannot read properties of undefined"

/-- The POST /jobs request body fields the handler destructures. -/
structure PostJobsBody where
  title : Option String := none
  companyName : Option String := none
  description : Option String := none
  requirements : JSVal := .undef
  responsibilities : JSVal := .undef
  jobType : Option String := none
  experienceLevel : Option String := none
  location : Option String := none
  remote : Option Bool := none
  salaryMin : Option Int := none
  salaryMax : Option Int := none
  primaryTechnology : Option String := none
  requiredSkills : JSVal := .undef
  benefits : JSVal := .undef
  status : Option String := none
  applicationDeadline : Option Nat := none
  deriving Repr, DecidableEq

/-- A required string field of `jobSchema`: fails on undefined or empty. -/
def reqStr (o : Option String) : Bool :=
  match o with
  | some s => !(s == "")
  | none => false

/-- `jobSchema` validation on `job.save()`: required fields must be present
and the enum fields must take an allowed value (an absent enum field with a
default passes). -/
def jobSchemaOk (b : PostJobsBody) : Bool :=
  reqStr b.title && reqStr b.companyName && reqStr b.description &&
  (match b.jobType with
    | some t => ["Full-time", "Part-time", "Contract", "Freelance"].contains t
    | none => false) &&
  (match b.experienceLevel with
    | some t => ["Entry Level", "Mid Level", "Senior Level", "Lead", "Manager"].contains t
    | none => false) &&
  reqStr b.location &&
  b.salaryMin.isSome && b.salaryMax.isSome &&
  reqStr b.primaryTechnology &&
  (match b.status with
    | some t => ["active", "closed", "draft"].contains t
    | none => true) &&
  b.applicationDeadline.isSome

/-- HTTP status of the POST /jobs handler: building the document evaluates
the four `Array.isArray(x) ? x : x.split(',')` expressions; any throw lands
in the catch block (400), otherwise `save()` answers 201 on schema-valid
input and 400 on a validation error. -/
def postJobsStatus (b : PostJobsBody) : Nat :=
  match coerceToArray b.requirements, coerceToArray b.responsibilities,
        coerceToArray b.requiredSkills, coerceToArray b.benefits with
  | .ok _, .ok _, .ok _, .ok _ => if jobSchemaOk b then 201 else 400
  | _, _, _, _ => 400

/-! ## GET /candidates/search (src/routes/jobs.js lines 416-455)

`Candidate.find($or over name/email/technology/skills regexes)
.limit(10).select('-resumeFile').sort({updatedAt: -1}).lean()`:
the store filters, sorts by `updatedAt` descending, limits to 10, and the
projection strips `resumeFile` from every returned document. -/

/-- The `$or` search predicate over one candidate: any of name, email,
technology, or some element of skills matches the case-insensitive
pattern. -/
def candMatches (q : String) (c : Candidate) : Bool :=
  containsCI q c.name || containsCI q c.email || containsCI q c.technology ||
  c.skills.any (containsCI q)

/-- The `.select('-resumeFile')` projection: the resume subdocument is
absent from the returned object (embedded as reset to its null default). -/
def dropResume (c : Candidate) : Candidate :=
  { c with resumeFile := {} }

/-- Insert into a list already sorted by `updatedAt` descending. -/
def insertByUpdated (c : Candidate) : List Candidate → List Candidate
  | [] => [c]
  | d :: ds =>
    if d.updatedAt < c.updatedAt then c :: d :: ds
    else d :: insertByUpdated c ds

/-- The store's `sort({updatedAt: -1})`: stable sort by `updatedAt`
descending. -/
def sortByUpdatedDesc (l : List Candidate) : List Candidate :=
  l.foldr insertByUpdated []

/-- The GET /candidates/search endpoint: a missing or empty `q` answers 400
with no data; otherwise status 200 with the filtered, sorted, limited and
resume-stripped documents. -/
def candidateSearch (q : String) (store : List Candidate) : Nat × List Candidate :=
  if q == "" then (400, [])
  else
    (200, ((sortByUpdatedDesc (store.filter (candMatches q))).take 10).map dropResume)

/-- A stored Hotlist document (hotlist schema): name, optional description,
candidate ids as weak references, creation date. -/
structure Hotlist where
  name : String
  description : Option String := none
  candidates : List String := []
  createdAt : Nat
  deriving Repr, DecidableEq

/-! ## Concrete sample data used by witnesses and counterexamples -/

/-- A concrete job document. -/
def sampleJob : Job :=
  { title := "Backend Engineer", company := { name := "Acme Corp" },
    description := "Build APIs", jobType := "Full-time",
    experienceLevel := "Mid Level", location := "Springfield, IL",
    primaryTechnology := "Node", applicationDeadline := 100,
    postedDate := 0, updatedAt := 0, views := 5, applications := 2 }

/-- A one-document store holding `sampleJob` at id 7. -/
def sampleStore : JobStore :=
  fun k => if k = 7 then some sampleJob else none

/-- `sampleJob` marked as a remote position. -/
def remoteJob : Job :=
  { sampleJob with remote := true }

/-- GET /jobs parameters: an active-status filter together with a search
term. -/
def searchParams : JobsParams :=
  { status := some "active", search := some "acme" }

/-- A POST /jobs body that is schema-valid except that `requirements` is
omitted. -/
def bodyMissingRequirements : PostJobsBody :=
  { title := some "Backend Engineer", companyName := some "Acme Corp",
    description := some "Build APIs", requirements := .undef,
    responsibilities := .str "code, review", jobType := some "Full-time",
    experienceLevel := some "Mid Level", location := some "Springfield, IL",
    salaryMin := some 50000, salaryMax := some 90000,
    primaryTechnology := some "Node", requiredSkills := .arr ["Node"],
    benefits := .str "healthcare", applicationDeadline := some 100 }

/-- A one-candidate store whose candidate carries a resume file stored at
path `p`; varying `p` varies only the resume subdocument. -/
def candWithResume (p : String) : Candidate :=
  { name := "Jane Doe", email := "jane@example.com", technology := "Go",
    skills := ["Go", "Rust"], createdAt := 10, updatedAt := 20,
    resumeFile := { filename := some "cv.pdf", path := some p,
                    mimetype := some "application/pdf" } }

/-! ## Theorems -/

/-- Claim C1: when a resume upload passed validation and was written to the
uploads directory but the subsequent candidate save fails for any reason
(missing or empty name or email, duplicate email, or a store failure), the
POST /candidate/with-resume handler answers 400 and the just-written file is
deleted: the uploads directory and the candidate collection are exactly as
before the request, so no orphan file remains. -/
theorem resume_cleanup_on_save_failure (storeOk : Bool) (now : Nat)
    (st : ApiState) (f : StoredFile) (body : WithResumeBody)
    (hfail : candidateSaveOk storeOk (st.candidates.map Candidate.email)
      body.name body.email = false)
    (hfresh : f.path ∉ st.files) :
    (withResumeHandler storeOk now st (some f) body).1 = 400 ∧
    (withResumeHandler storeOk now st (some f) body).2.files = st.files ∧
    (withResumeHandler storeOk now st (some f) body).2.candidates = st.candidates := by
  refine ⟨by simp [withResumeHandler, hfail], ?_, by simp [withResumeHandler, hfail]⟩
  simp only [withResumeHandler, hfail, Bool.false_eq_true, if_false]
  rw [List.erase_append_right _ hfresh]
  simp

/-- Witness for C1: a request that uploads a valid PDF but omits `email`
fails with 400 and leaves the uploads directory as it was. -/
theorem resume_cleanup_witness :
    (withResumeHandler true 50 { files := ["old.pdf"], candidates := [] }
        (some { filename := "cv.pdf", path := "uploads/50-cv.pdf",
                mimetype := "application/pdf" })
        { name := some "Jane Doe" }).1 = 400 ∧
    (withResumeHandler true 50 { files := ["old.pdf"], candidates := [] }
        (some { filename := "cv.pdf", path := "uploads/50-cv.pdf",
                mimetype := "application/pdf" })
        { name := some "Jane Doe" }).2.files = ["old.pdf"] ∧
    (withResumeHandler true 50 { files := ["old.pdf"], candidates := [] }
        (some { filename := "cv.pdf", path := "uploads/50-cv.pdf",
                mimetype := "application/pdf" })
        { name := some "Jane Doe" }).2.candidates = [] :=
  resume_cleanup_on_save_failure true 50 { files := ["old.pdf"], candidates := [] }
    { filename := "cv.pdf", path := "uploads/50-cv.pdf", mimetype := "application/pdf" }
    { name := some "Jane Doe" } (by decide) (by decide)

/-- Claim C2: the views and applications counters are maintained by the
single atomic store instruction `findByIdAndUpdate .. $inc ..`, so any
serialization of N concurrent view requests and M concurrent apply requests
against one job record increases `views` by exactly N and `applications` by
exactly M — never less, whatever the interleaving. -/
theorem counters_increase_by_op_count (id : Nat) (ops : List CounterOp)
    (st : JobStore) (j : Job) (h : st id = some j) :
    runOps id ops st id =
      some { j with views := j.views + ops.count .view,
                    applications := j.applications + ops.count .app } := by
  induction ops generalizing st j with
  | nil => simpa [runOps] using h
  | cons o t ih =>
    have hstep : (incStep id o st) id = some (applyInc o j) := by
      simp [incStep, h]
    have := ih (incStep id o st) (applyInc o j) hstep
    rw [runOps] at this ⊢
    simp only [List.foldl_cons]
    rw [show (List.foldl (fun s o => incStep id o s) (incStep id o st) t) =
      runOps id t (incStep id o st) from rfl] at *
    rw [this]
    cases o <;> simp [applyInc, List.count_cons] <;> omega

/-- Witness for C2: two view requests interleaved with one apply request on
the sample store raise views from 5 to 7 and applications from 2 to 3. -/
theorem counters_increase_witness :
    runOps 7 [.view, .app, .view] sampleStore 7 =
      some { sampleJob with views := 7, applications := 3 } := by
  have := counters_increase_by_op_count 7 [.view, .app, .view] sampleStore sampleJob
    (by simp [sampleStore])
  simpa [sampleJob] using this

/-- Counterexample to claim C3 as stated: on the input "go," the filter
builder keeps the empty token (`["go", ""]`) while the candidate-creation
tokenization discards it (`["go"]`), so the two token lists are not equal
for every comma-separated string. -/
theorem requiredSkills_vs_candidate_tokens_differ :
    filterTokens "go," ≠ candidateSkillTokens "go," := by decide

/-- Claim C3 amended: the candidate-creation tokenization equals the filter
builder's tokenization with empty tokens discarded, and the two agree
exactly on strings none of whose comma-separated tokens trims to empty. -/
theorem tokenizations_agree_without_empty_tokens (s : String) :
    candidateSkillTokens s = (filterTokens s).filter (fun t => !(t == "")) ∧
    ((filterTokens s).all (fun t => !(t == "")) = true →
      filterTokens s = candidateSkillTokens s) := by
  refine ⟨rfl, fun h => ?_⟩
  have h2 : ∀ t ∈ filterTokens s, (!(t == "")) = true := by
    simpa [List.all_eq_true] using h
  exact (List.filter_eq_self.mpr h2).symm

/-- Witness for C3 amended: on "go, rust" both tokenizations agree. -/
theorem tokenizations_agree_witness :
    filterTokens "go, rust" = candidateSkillTokens "go, rust" :=
  (tokenizations_agree_without_empty_tokens "go, rust").2 (by decide)

/-- Counterexample to claim C4 as stated: supplying `remote=` (the empty
string) is not treated like omitting the parameter — it constrains the
query to `remote: false`, so a remote job matched by the unconstrained
query is excluded. -/
theorem remote_empty_string_constrains :
    matchesQuery (buildJobsQuery { remote := some "" }) remoteJob = false ∧
    matchesQuery (buildJobsQuery {}) remoteJob = true := by
  constructor <;> decide

/-- Claim C4 amended: for every query parameter of GET /jobs except
`remote`, the empty string is treated exactly like omitting the parameter
(no constraint, and no pattern is built from an empty string); for `remote`
every supplied value, the empty string included, constrains the field, with
"true" mapping to true and any other value (empty or not) to false. -/
theorem empty_params_absent_except_remote (p : JobsParams) :
    buildJobsQuery { p with status := some "" } = buildJobsQuery { p with status := none } ∧
    buildJobsQuery { p with jobType := some "" } = buildJobsQuery { p with jobType := none } ∧
    buildJobsQuery { p with experienceLevel := some "" } =
      buildJobsQuery { p with experienceLevel := none } ∧
    buildJobsQuery { p with primaryTechnology := some "" } =
      buildJobsQuery { p with primaryTechnology := none } ∧
    buildJobsQuery { p with location := some "" } = buildJobsQuery { p with location := none } ∧
    buildJobsQuery { p with search := some "" } = buildJobsQuery { p with search := none } ∧
    buildJobsQuery { p with requiredSkills := some "" } =
      buildJobsQuery { p with requiredSkills := none } ∧
    (buildJobsQuery p).remote = p.remote.map (fun v => v == "true") := by
  refine ⟨?_, ?_, ?_, ?_, ?_, ?_, ?_, rfl⟩ <;> simp [buildJobsQuery, jsTruthy]

/-- Claim C5: with a non-empty search term, a job matches the built query
exactly when it matches all the other supplied filters and additionally
title, description or company name contains the term case-insensitively —
the search clause is one disjunctive conjunct, composing with (not
replacing) the other filters; in particular a job whose company name alone
contains the term matches when no other filter excludes it. -/
theorem search_composes_with_filters (p : JobsParams) (j : Job) (s : String)
    (hs : p.search = some s) (hne : (s == "") = false) :
    (matchesQuery (buildJobsQuery p) j = true ↔
      (matchesQuery (buildJobsQuery { p with search := none }) j = true ∧
       (containsCI s j.title || containsCI s j.description ||
        containsCI s j.company.name) = true)) := by
  simp [matchesQuery, buildJobsQuery, jsTruthy, hs, hne, optSat,
    Bool.and_eq_true, Bool.or_eq_true]
  tauto

/-- Witness for C5: `search=acme` with an active-status filter, against the
sample job, whose company name "Acme Corp" alone contains the term. -/
theorem search_composes_witness :
    matchesQuery (buildJobsQuery searchParams) { sampleJob with status := "active" } = true ↔
      (matchesQuery (buildJobsQuery { searchParams with search := none })
          { sampleJob with status := "active" } = true ∧
       (containsCI "acme" ({ sampleJob with status := "active" } : Job).title ||
        containsCI "acme" ({ sampleJob with status := "active" } : Job).description ||
        containsCI "acme" ({ sampleJob with status := "active" } : Job).company.name) = true) :=
  search_composes_with_filters searchParams { sampleJob with status := "active" } "acme" rfl rfl

/-- Counterexample to claim C6 as stated: a malformed id supplied to the
candidate lookup is answered with 500 (the candidate route's catch block
returns 500 for every thrown error, CastError included), not with the
claimed 400. -/
theorem malformed_candidate_id_counterexample :
    getCandidateByIdStatus (fun _ => (none : Option Candidate)) "not-an-objectid" = 500 ∧
    (500 : Nat) ≠ 400 := by
  constructor
  · rfl
  · decide

/-- Claim C6 amended: only the job lookup rejects a malformed id with 400,
distinct from the 404 of a well-formed unknown id; the candidate and
hotlist lookups answer 500 on a malformed id. -/
theorem id_lookup_statuses (jst : String → Option Job)
    (cst : String → Option Candidate) (hst : String → Option Hotlist)
    (badId goodId : String)
    (hbad : isValidObjectId badId = false)
    (hgood : isValidObjectId goodId = true) (hmiss : jst goodId = none) :
    getJobByIdStatus jst badId = 400 ∧
    getCandidateByIdStatus cst badId = 500 ∧
    getHotlistByIdStatus hst badId = 500 ∧
    getJobByIdStatus jst goodId = 404 := by
  refine ⟨?_, ?_, ?_, ?_⟩ <;>
    simp [getJobByIdStatus, getCandidateByIdStatus, getHotlistByIdStatus,
      findById, hbad, hgood, hmiss]

/-- Witness for C6 amended: the short id "short" and the well-formed but
unknown id on empty stores. -/
theorem id_lookup_statuses_witness :
    getJobByIdStatus (fun _ => (none : Option Job)) "short" = 400 ∧
    getCandidateByIdStatus (fun _ => (none : Option Candidate)) "short" = 500 ∧
    getHotlistByIdStatus (fun _ => (none : Option Hotlist)) "short" = 500 ∧
    getJobByIdStatus (fun _ => (none : Option Job)) "0123456789abcdef01234567" = 404 :=
  id_lookup_statuses (fun _ => none) (fun _ => none) (fun _ => none)
    "short" "0123456789abcdef01234567" (by decide) (by decide) rfl

/-- Claim C7: a resume upload is accepted exactly when its MIME type is one
of application/pdf, application/msword, or the modern Word type AND its
size is at most 5 MiB; every rejection is a client error (400) and leaves
the uploads directory unchanged — no file remains. -/
theorem upload_validation (now : Nat) (files : List String) (f : IncomingFile)
    (hf : f.fieldname = "resumeFile") :
    ((multerSingle now files f).1 = none ↔
      (allowedMimes.contains f.mimetype = true ∧ f.size ≤ fileSizeLimit)) ∧
    ((multerSingle now files f).1 = none ∨ (multerSingle now files f).1 = some 400) ∧
    ((multerSingle now files f).1 = some 400 → (multerSingle now files f).2 = files) := by
  simp only [multerSingle, fileFilterAccepts, hf]
  cases hc : allowedMimes.contains f.mimetype <;>
    by_cases h2 : f.size ≤ fileSizeLimit <;>
    simp [hc, h2]

/-- Witness for C7: an image/png upload on the resume field is rejected
with 400 and the uploads directory stays empty. -/
theorem upload_validation_witness :
    (multerSingle 1000 []
        { fieldname := "resumeFile", originalname := "cv.png",
          mimetype := "image/png", size := 100 }).1 = some 400 ∧
    (multerSingle 1000 []
        { fieldname := "resumeFile", originalname := "cv.png",
          mimetype := "image/png", size := 100 }).2 = [] := by
  have h := upload_validation 1000 []
    { fieldname := "resumeFile", originalname := "cv.png",
      mimetype := "image/png", size := 100 } rfl
  rcases h with ⟨hiff, hcases, hclean⟩
  rcases hcases with hnone | h400
  · exact absurd ((hiff.mp hnone).1) (by decide)
  · exact ⟨h400, hclean h400⟩

/-- Counterexample to claim C8 as stated: the views increment issued by
GET /jobs/:id applies only `$inc`, so on the sample job (stored updatedAt
0) a fetch at current time 1 leaves updatedAt at 0 — the counter-increment
operations do not refresh updatedAt. -/
theorem inc_does_not_refresh_updatedAt :
    (applyInc .view sampleJob).updatedAt = sampleJob.updatedAt ∧
    sampleJob.updatedAt ≠ 1 := by
  constructor
  · rfl
  · decide

/-- Claim C8 amended: updates through the document-save path refresh
updatedAt to the current time via the pre-save hooks of the Job and
Candidate schemas, but the views/applications counter increments issued
through findByIdAndUpdate leave updatedAt unchanged (and the Hotlist schema
has no updatedAt field at all). -/
theorem updatedAt_refresh_behavior (now : Nat) (j : Job) (c : Candidate) (o : CounterOp) :
    (jobPreSave now j).updatedAt = now ∧
    (candidatePreSave now c).updatedAt = now ∧
    (applyInc o j).updatedAt = j.updatedAt := by
  refine ⟨rfl, rfl, ?_⟩
  cases o <;> rfl

/-- Claim C9: a POST /jobs body omitting any one of requirements,
responsibilities, requiredSkills or benefits fails with 400: the handler
unconditionally calls .split on the missing (undefined) value, the thrown
TypeError lands in the catch block, and no job is created with the schema's
default empty list. -/
theorem missing_array_field_fails_post_jobs (b : PostJobsBody)
    (h : b.requirements = .undef ∨ b.responsibilities = .undef ∨
         b.requiredSkills = .undef ∨ b.benefits = .undef) :
    postJobsStatus b = 400 := by
  unfold postJobsStatus
  rcases h with h | h | h | h <;> rw [h] <;>
    cases coerceToArray b.requirements <;>
    cases coerceToArray b.responsibilities <;>
    cases coerceToArray b.requiredSkills <;>
    cases coerceToArray b.benefits <;>
    simp [coerceToArray]

/-- Witness for C9: an otherwise schema-valid body with `requirements`
omitted is answered 400. -/
theorem missing_array_field_witness :
    postJobsStatus bodyMissingRequirements = 400 :=
  missing_array_field_fails_post_jobs bodyMissingRequirements (Or.inl rfl)

/-- The search predicate reads no part of the resume subdocument. -/
theorem candMatches_dropResume (q : String) (c : Candidate) :
    candMatches q (dropResume c) = candMatches q c := rfl

/-- Stripping the resume subdocument twice is the same as stripping once. -/
theorem dropResume_idem (c : Candidate) : dropResume (dropResume c) = dropResume c := rfl

/-- Filtering by the search predicate commutes with stripping resumes. -/
theorem filter_map_dropResume (q : String) (l : List Candidate) :
    (l.map dropResume).filter (candMatches q) = (l.filter (candMatches q)).map dropResume := by
  induction l with
  | nil => rfl
  | cons c t ih =>
    by_cases h : candMatches q c
    · simp [List.filter_cons, candMatches_dropResume, h, ih]
    · simp [List.filter_cons, candMatches_dropResume, h, ih]

/-- Sorted insertion by `updatedAt` commutes with stripping resumes. -/
theorem insert_map_dropResume (c : Candidate) (l : List Candidate) :
    (insertByUpdated c l).map dropResume =
      insertByUpdated (dropResume c) (l.map dropResume) := by
  induction l with
  | nil => rfl
  | cons d t ih =>
    by_cases h : d.updatedAt < c.updatedAt
    · simp [insertByUpdated, dropResume, h, ih]
    · simp [insertByUpdated, dropResume, h, ih]

/-- The `updatedAt` sort commutes with stripping resumes. -/
theorem sort_map_dropResume (l : List Candidate) :
    (sortByUpdatedDesc l).map dropResume = sortByUpdatedDesc (l.map dropResume) := by
  induction l with
  | nil => rfl
  | cons c t ih =>
    show (insertByUpdated c (sortByUpdatedDesc t)).map dropResume =
      insertByUpdated (dropResume c) (sortByUpdatedDesc (t.map dropResume))
    rw [insert_map_dropResume, ih]

/-- The whole search response depends on a store only through its
resume-stripped image. -/
theorem candidateSearch_factors (q : String) (l : List Candidate) :
    candidateSearch q (l.map dropResume) = candidateSearch q l := by
  unfold candidateSearch
  by_cases hq : q == ""
  · simp [hq]
  · simp only [hq, Bool.false_eq_true, if_false]
    rw [filter_map_dropResume, ← sort_map_dropResume, ← List.map_take, List.map_map,
      show dropResume ∘ dropResume = dropResume from funext dropResume_idem]

/-- Claim C10: the GET /candidates/search response never exposes the
resumeFile field — two candidate stores that differ only in the resumeFile
subdocuments of their candidates produce identical search responses for
every query string. -/
theorem candidate_search_resume_noninterference (q : String) (s1 s2 : List Candidate)
    (h : s1.map dropResume = s2.map dropResume) :
    candidateSearch q s1 = candidateSearch q s2 := by
  rw [← candidateSearch_factors q s1, ← candidateSearch_factors q s2, h]

/-- Witness for C10: two stores holding the same candidate with different
stored resume paths yield the same response for the query "jane". -/
theorem candidate_search_noninterference_witness :
    candidateSearch "jane" [candWithResume "uploads/1-cv.pdf"] =
      candidateSearch "jane" [candWithResume "uploads/2-cv.pdf"] :=
  candidate_search_resume_noninterference "jane"
    [candWithResume "uploads/1-cv.pdf"] [candWithResume "uploads/2-cv.pdf"] rfl

end IthotlistApi
